import Mathlib

/- Verification development for the WWOZ event ETL loader.

   The Python loader (src/loader/service.py, src/shared/db/models/models.py,
   src/shared/db/database.py) is embedded shallowly: SQL rows become Lean
   structures, timestamps become integer seconds, SQL floats become
   rationals, nullable SQL columns become Option values, and each loader
   operation becomes a pure state-passing function over an explicit
   database value.  Concurrency is determinized: the single-writer path of
   every INSERT ... ON CONFLICT statement is modelled (an existence check
   followed by the matching branch), and the conflict branch of the venue
   upsert is additionally modelled on its own, since it only fires under a
   concurrent insert. -/

namespace FestLoad

/-- Prefix test on character lists; building block for the Python `in`
substring operator. -/
def charListPfx : List Char → List Char → Bool
  | [], _ => true
  | _ :: _, [] => false
  | a :: as, b :: bs => a == b && charListPfx as bs

/-- Substring occurrence test on character lists. -/
def charListHasSub (pat : List Char) : List Char → Bool
  | [] => charListPfx pat []
  | c :: rest => charListPfx pat (c :: rest) || charListHasSub pat rest

/-- Python `pat in hay` on strings. -/
def strContainsSub (hay pat : String) : Bool :=
  charListHasSub pat.toList hay.toList

/-- Python str.lower(), character-wise (the markers the loader searches
for are ASCII, where Char.toLower agrees with Python). -/
def pyStrLower (s : String) : String :=
  String.mk (s.toList.map Char.toLower)

/-- Python truthiness of a nullable string: None and the empty string are
falsy, everything else truthy.  Used where the Python source tests a str
field directly (`if event_data.wwoz_event_href:`). -/
def pyTruthyStr : Option String → Bool
  | none => false
  | some s => !(s == "")

/-- Python truthiness of a nullable float column (`not self.latitude`):
None and 0.0 are falsy.  Floats are modelled as rationals. -/
def pyFalsyNum : Option ℚ → Bool
  | none => true
  | some q => q == 0

/-- SQL COALESCE on two nullable values: the first operand when it is
non-null, otherwise the second. -/
def sqlCoalesce {α : Type} : Option α → Option α → Option α
  | some v, _ => some v
  | none, b => b

/-- Python timedelta .days of a difference given in seconds: floor
division by 86400 (timedelta stores floored days). -/
def timedeltaDays (seconds : ℤ) : ℤ :=
  Int.fdiv seconds 86400

/-- SQLAlchemy instance state, as far as the loader inspects it: an object
added to the session but not yet flushed is pending; an object returned by
a select, or one that has been flushed, is persistent
(`_sa_instance_state.pending`). -/
inductive OrmState
  | pending
  | persistent
deriving DecidableEq, Repr

/-- Instance state of an object returned by `session.execute(select ...)`:
always persistent. -/
def fetchedState : OrmState := OrmState.persistent

/-- Effect of `session.flush()` on an instance state: a pending object
becomes persistent. -/
def flushedState : OrmState → OrmState := fun _ => OrmState.persistent

/-- Row of the genres table (models.py: id, name unique not null,
description; the embedding column is never touched by the loader and is
omitted). -/
structure GenreRow where
  id : Nat
  name : String
  description : Option String
deriving DecidableEq, Repr

/-- Row of the artists table (models.py lines 143-152) together with its
genre association set (artist_genres ids). -/
structure ArtistRow where
  id : Nat
  name : String
  wwoz_artist_href : Option String
  description : Option String
  popularity_score : Option ℚ
  typical_set_length : Option ℤ
  website : Option String
  description_embedding : Option (List ℚ)
  genres : List Nat
deriving DecidableEq, Repr

/-- Row of the venues table (models.py lines 71-94) with its genre
association set.  is_active, is_indoors and is_streaming are Bool because
every write of the loader supplies a concrete boolean;
latitude/longitude/last_geocoded stay nullable because needs_geocoding
inspects their absence. -/
structure VenueRow where
  id : Nat
  name : String
  phone_number : Option String
  thoroughfare : Option String
  locality : Option String
  state : Option String
  postal_code : Option String
  full_address : Option String
  wwoz_venue_href : Option String
  website : Option String
  is_active : Bool
  latitude : Option ℚ
  longitude : Option ℚ
  capacity : Option Nat
  is_indoors : Bool
  is_streaming : Bool
  last_geocoded : Option ℤ
  description : Option String
  venue_info_embedding : Option (List ℚ)
  genres : List Nat
deriving DecidableEq, Repr

/-- Row of the events table (models.py lines 209-228) with its genre
association set.  last_updated (a server-side default never written by the
loader) is omitted. -/
structure EventRow where
  id : Nat
  wwoz_event_href : Option String
  description : Option String
  artist_id : Option Nat
  venue_id : Option Nat
  artist_name : Option String
  venue_name : Option String
  performance_time : ℤ
  end_time : Option ℤ
  scrape_time : ℤ
  is_recurring : Bool
  recurrence_pattern : Option String
  is_indoors : Bool
  is_streaming : Bool
  description_embedding : Option (List ℚ)
  event_text_embedding : Option (List ℚ)
  genres : List Nat
deriving DecidableEq, Repr

/-- The relational state the loader mutates: the four entity tables, the
artist_relations edge table, and the id sequences. -/
structure DB where
  genres : List GenreRow
  artists : List ArtistRow
  venues : List VenueRow
  events : List EventRow
  artistRelations : List (Nat × Nat)
  nextGenreId : Nat
  nextArtistId : Nat
  nextVenueId : Nat
  nextEventId : Nat
deriving DecidableEq, Repr

/-- The empty database. -/
def emptyDB : DB :=
  { genres := [], artists := [], venues := [], events := [],
    artistRelations := [], nextGenreId := 1, nextArtistId := 1,
    nextVenueId := 1, nextEventId := 1 }

/-- ArtistData DTO (shared/schemas/dto.py).  The str fields are modelled as
Option String: they are bound as nullable SQL parameters by the loader, and
the upsert SQL distinguishes NULL from present values via COALESCE. -/
structure ArtistData where
  name : String
  description : Option String
  genres : List String
  related_artists : List String
  wwoz_artist_href : Option String
  website : Option String
deriving DecidableEq, Repr

/-- VenueData DTO (shared/schemas/dto.py).  is_active is declared
`bool = True` in the dataclass and is therefore modelled as Bool; the str
fields are nullable SQL parameters and are modelled as Option String. -/
structure VenueData where
  name : String
  thoroughfare : Option String
  phone_number : Option String
  locality : Option String
  state : Option String
  postal_code : Option String
  full_address : Option String
  is_active : Bool
  website : Option String
  wwoz_venue_href : Option String
  event_artist : Option String
deriving DecidableEq, Repr

/-- EventData DTO (shared/schemas/dto.py); event_date is the performance
timestamp the loader persists. -/
structure EventData where
  event_date : ℤ
  wwoz_event_href : Option String
  event_artist : Option String
  wwoz_artist_href : Option String
  description : Option String
  related_artists : List String
  genres : List String
deriving DecidableEq, Repr

/-- EventDTO (shared/schemas/dto.py): one denormalized input record. -/
structure EventDTO where
  artist_data : ArtistData
  venue_data : VenueData
  event_data : EventData
  performance_time : ℤ
  scrape_time : ℤ
deriving DecidableEq, Repr

/-- The external collaborators of one loader run: the geocoding provider
(total, never raises: it substitutes default coordinates on failure), the
embedding provider, and the wall clock (datetime.now as integer
seconds). -/
structure Env where
  geocode : Option String → ℚ × ℚ
  embed : String → List ℚ
  now : ℤ

/-- The four-key operation summary dict built by _process_event_batch and
save_events. -/
structure Summary where
  artists_created : Nat
  venues_created : Nat
  genres_created : Nat
  events_created : Nat
deriving DecidableEq, Repr

/-- The all-zero summary both functions start from. -/
def zeroSummary : Summary :=
  { artists_created := 0, venues_created := 0, genres_created := 0,
    events_created := 0 }

/-- Key-wise aggregation of two summaries (save_events line 703-704). -/
def addSummary (a b : Summary) : Summary :=
  { artists_created := a.artists_created + b.artists_created,
    venues_created := a.venues_created + b.venues_created,
    genres_created := a.genres_created + b.genres_created,
    events_created := a.events_created + b.events_created }

/-- Venue.needs_geocoding (models.py lines 107-114): Python truthiness on
the coordinates (None or 0.0 falsy), presence of last_geocoded, then a
floored-days staleness test strictly greater than 30. -/
def needsGeocoding (v : VenueRow) (now : ℤ) : Bool :=
  if pyFalsyNum v.latitude || pyFalsyNum v.longitude then true
  else
    match v.last_geocoded with
    | none => true
    | some t => timedeltaDays (now - t) > 30

/-- In-place row update as the ORM session sees it: the row with the same
primary key is replaced. -/
def updateArtistRow (l : List ArtistRow) (a : ArtistRow) : List ArtistRow :=
  l.map fun x => if x.id == a.id then a else x

/-- In-place venue row update keyed on id. -/
def updateVenueRow (l : List VenueRow) (v : VenueRow) : List VenueRow :=
  l.map fun x => if x.id == v.id then v else x

/-- In-place event row update keyed on id. -/
def updateEventRow (l : List EventRow) (e : EventRow) : List EventRow :=
  l.map fun x => if x.id == e.id then e else x

/-- Result of get_or_create_genre. -/
structure GenreRes where
  db : DB
  genre : GenreRow

/-- Lookup select(Genre).filter_by(name=...). -/
def findGenreByName (db : DB) (n : String) : Option GenreRow :=
  db.genres.find? (fun g => g.name == n)

/-- Lookup select(Artist).filter_by(name=...). -/
def findArtistByName (db : DB) (n : String) : Option ArtistRow :=
  db.artists.find? (fun a => a.name == n)

/-- Lookup select(Venue).filter_by(name=..., full_address=...). -/
def findVenueByNameAddress (db : DB) (n : String) (fa : Option String) :
    Option VenueRow :=
  db.venues.find? (fun v => v.name == n && v.full_address == fa)

/-- Lookup select(Event).filter_by(wwoz_event_href=...). -/
def findEventByHref (db : DB) (h : Option String) : Option EventRow :=
  db.events.find? (fun e2 => e2.wwoz_event_href == h)

/-- get_or_create_genre (service.py lines 75-125): INSERT ... ON CONFLICT
(name) DO NOTHING, then fetch; determinized as lookup-then-insert. -/
def getOrCreateGenre (db : DB) (name : String) : GenreRes :=
  match findGenreByName db name with
  | some g => { db := db, genre := g }
  | none =>
      let g : GenreRow := { id := db.nextGenreId, name := name, description := none }
      { db := { db with genres := db.genres ++ [g],
                        nextGenreId := db.nextGenreId + 1 },
        genre := g }

/-- The genre_objects list built at the top of the per-event loop
(service.py lines 560-563), as association ids in input order. -/
def collectGenres (db : DB) (names : List String) : DB × List Nat :=
  names.foldl
    (fun acc n =>
      let r := getOrCreateGenre acc.1 n
      (r.db, acc.2 ++ [r.genre.id]))
    (db, [])

/-- The DO UPDATE SET branch of the artist upsert (service.py lines
151-154): COALESCE merge of href, description and website; every other
column is untouched. -/
def mergeArtistOnConflict (old : ArtistRow) (d : ArtistData) : ArtistRow :=
  { old with
    wwoz_artist_href := sqlCoalesce d.wwoz_artist_href old.wwoz_artist_href,
    description := sqlCoalesce d.description old.description,
    website := sqlCoalesce d.website old.website }

/-- Result of upsert_artist: the session state after it, the artist object
it returns, and that objects instance state at return time. -/
structure ArtistRes where
  db : DB
  artist : ArtistRow
  st : OrmState

/-- upsert_artist (service.py lines 127-213), success path: INSERT ... ON
CONFLICT (name) DO UPDATE with COALESCE merge, re-fetch by id (hence a
persistent instance), then reattach the supplied genre list when it is
non-empty.  Determinized as lookup-then-branch; the exception fallback
needs an environment fault and is outside the pure model. -/
def upsertArtist (db : DB) (d : ArtistData) (genreIds : List Nat) : ArtistRes :=
  match findArtistByName db d.name with
  | some old =>
      let merged := mergeArtistOnConflict old d
      let merged := if genreIds.isEmpty then merged else { merged with genres := genreIds }
      { db := { db with artists := updateArtistRow db.artists merged },
        artist := merged, st := fetchedState }
  | none =>
      let row : ArtistRow :=
        { id := db.nextArtistId, name := d.name,
          wwoz_artist_href := d.wwoz_artist_href,
          description := d.description,
          popularity_score := none, typical_set_length := none,
          website := d.website, description_embedding := none,
          genres := if genreIds.isEmpty then [] else genreIds }
      { db := { db with artists := db.artists ++ [row],
                        nextArtistId := db.nextArtistId + 1 },
        artist := row, st := fetchedState }

/-- The 15 bound parameters of the venue INSERT (service.py lines 300-317):
the venue_data fields, the geocode result, datetime.now, and the two flags
derived from the lowercased venue name.  latitude, longitude,
last_geocoded, is_indoors, is_streaming and is_active are always bound to
non-null values. -/
structure VenueInsertValues where
  name : String
  phone_number : Option String
  thoroughfare : Option String
  locality : Option String
  state : Option String
  postal_code : Option String
  full_address : Option String
  wwoz_venue_href : Option String
  website : Option String
  is_active : Bool
  latitude : ℚ
  longitude : ℚ
  last_geocoded : ℤ
  is_indoors : Bool
  is_streaming : Bool
deriving DecidableEq, Repr

/-- Construction of the venue insert parameters (service.py lines 262-317):
geocode venue_data.full_address, derive is_indoors (no "outdoor" in the
lowercased name) and is_streaming ("streaming" in the lowercased name). -/
def venueInsertValues (d : VenueData) (geo : ℚ × ℚ) (now : ℤ) : VenueInsertValues :=
  { name := d.name,
    phone_number := d.phone_number,
    thoroughfare := d.thoroughfare,
    locality := d.locality,
    state := d.state,
    postal_code := d.postal_code,
    full_address := d.full_address,
    wwoz_venue_href := d.wwoz_venue_href,
    website := d.website,
    is_active := d.is_active,
    latitude := geo.1,
    longitude := geo.2,
    last_geocoded := now,
    is_indoors := !(strContainsSub (pyStrLower d.name) "outdoor"),
    is_streaming := strContainsSub (pyStrLower d.name) "streaming" }

/-- The DO UPDATE SET branch of the venue upsert (service.py lines
284-297): COALESCE merge for the seven nullable text columns, unconditional
assignment for is_active, the coordinates, last_geocoded and the two flags;
name, full_address, description, capacity and the embedding are
untouched. -/
def mergeVenueOnConflict (old : VenueRow) (vals : VenueInsertValues) : VenueRow :=
  { old with
    phone_number := sqlCoalesce vals.phone_number old.phone_number,
    thoroughfare := sqlCoalesce vals.thoroughfare old.thoroughfare,
    locality := sqlCoalesce vals.locality old.locality,
    state := sqlCoalesce vals.state old.state,
    postal_code := sqlCoalesce vals.postal_code old.postal_code,
    wwoz_venue_href := sqlCoalesce vals.wwoz_venue_href old.wwoz_venue_href,
    website := sqlCoalesce vals.website old.website,
    is_active := vals.is_active,
    latitude := some vals.latitude,
    longitude := some vals.longitude,
    last_geocoded := some vals.last_geocoded,
    is_indoors := vals.is_indoors,
    is_streaming := vals.is_streaming }

/-- The fresh row the venue INSERT creates when there is no conflict. -/
def venueRowOfInsert (id : Nat) (vals : VenueInsertValues) : VenueRow :=
  { id := id, name := vals.name,
    phone_number := vals.phone_number,
    thoroughfare := vals.thoroughfare,
    locality := vals.locality,
    state := vals.state,
    postal_code := vals.postal_code,
    full_address := vals.full_address,
    wwoz_venue_href := vals.wwoz_venue_href,
    website := vals.website,
    is_active := vals.is_active,
    latitude := some vals.latitude,
    longitude := some vals.longitude,
    capacity := none,
    is_indoors := vals.is_indoors,
    is_streaming := vals.is_streaming,
    last_geocoded := some vals.last_geocoded,
    description := none,
    venue_info_embedding := none,
    genres := [] }

/-- Result of upsert_venue; geocoded counts the calls made to the geocoding
provider during this upsert. -/
structure VenueRes where
  db : DB
  venue : VenueRow
  st : OrmState
  geocoded : Nat

/-- upsert_venue (service.py lines 215-383), success path: lookup by
(name, full_address); when found, re-geocode the stored address only if
needs_geocoding holds and reattach a non-empty genre list; when absent,
geocode once and insert (single-writer path of the ON CONFLICT
statement). -/
def upsertVenue (env : Env) (db : DB) (d : VenueData) (genreIds : List Nat) : VenueRes :=
  match findVenueByNameAddress db d.name d.full_address with
  | some existing =>
      let regeo := needsGeocoding existing env.now
      let v1 :=
        if regeo then
          let g := env.geocode existing.full_address
          { existing with latitude := some g.1, longitude := some g.2,
                          last_geocoded := some env.now }
        else existing
      let v2 := if genreIds.isEmpty then v1 else { v1 with genres := genreIds }
      { db := { db with venues := updateVenueRow db.venues v2 },
        venue := v2, st := fetchedState,
        geocoded := if regeo then 1 else 0 }
  | none =>
      let g := env.geocode d.full_address
      let vals := venueInsertValues d g env.now
      let row := venueRowOfInsert db.nextVenueId vals
      let row := if genreIds.isEmpty then row else { row with genres := genreIds }
      { db := { db with venues := db.venues ++ [row],
                        nextVenueId := db.nextVenueId + 1 },
        venue := row, st := fetchedState, geocoded := 1 }

/-- Result of upsert_event. -/
structure EventRes where
  db : DB
  event : EventRow
  st : OrmState

/-- generate_embeddings_for_event (service.py lines 49-73): a description
embedding only when the description is truthy, and a combined text
embedding over artist name, venue name and the description (or the empty
string). -/
def eventEmbeddings (env : Env) (artistName venueName : String)
    (description : Option String) : Option (List ℚ) × Option (List ℚ) :=
  let descPart := match description with | some s => s | none => ""
  let descEmb := if pyTruthyStr description then some (env.embed descPart) else none
  (descEmb, some (env.embed (artistName ++ " " ++ venueName ++ " " ++ descPart)))

/-- The in-place update upsert_event applies to an existing event
(service.py lines 417-426): back-fill a falsy stored description from a
truthy supplied one, and replace the genre links when the supplied list is
non-empty. -/
def existingEventUpdate (d : EventData) (genreIds : List Nat) (ex : EventRow) :
    EventRow :=
  let e1 :=
    if pyTruthyStr d.description && !(pyTruthyStr ex.description) then
      { ex with description := d.description }
    else ex
  if genreIds.isEmpty then e1 else { e1 with genres := genreIds }

/-- The error PostgreSQL raises when session.flush() inserts a row whose
non-null wwoz_event_href equals that of an existing row: the deployed
schema carries the unique index idx_events_href (database.py lines
162-164), and unique indexes conflict on every non-NULL duplicate,
the empty string included. -/
def dupKeyError : String :=
  "duplicate key value violates unique constraint idx_events_href"

/-- upsert_event (service.py lines 385-469): when the href is truthy, look
up the existing event and update it in place (existingEventUpdate);
otherwise build a new Event, generate embeddings, add and flush it.  The
flush hits the unique index idx_events_href: a non-null href equal to an
existing rows href raises a duplicate-key error, and the except block
(lines 454-469) re-selects only a truthy href — which cannot conflict here,
the lookup having just missed — so for a falsy non-null href (the empty
string) the error is re-raised to the caller and no row is created. -/
def upsertEvent (env : Env) (db : DB) (d : EventData) (artist : ArtistRow)
    (venue : VenueRow) (genreIds : List Nat) : Except String EventRes :=
  match
    (if pyTruthyStr d.wwoz_event_href then findEventByHref db d.wwoz_event_href
    else none) with
  | some existing =>
      let e2 := existingEventUpdate d genreIds existing
      Except.ok
        { db := { db with events := updateEventRow db.events e2 },
          event := e2, st := fetchedState }
  | none =>
      if d.wwoz_event_href.isSome && (findEventByHref db d.wwoz_event_href).isSome
      then Except.error dupKeyError
      else
        let emb := eventEmbeddings env artist.name venue.name d.description
        let row : EventRow :=
          { id := db.nextEventId,
            wwoz_event_href := d.wwoz_event_href,
            description := d.description,
            artist_id := some artist.id,
            venue_id := some venue.id,
            artist_name := some artist.name,
            venue_name := some venue.name,
            performance_time := d.event_date,
            end_time := none,
            scrape_time := env.now,
            is_recurring := false,
            recurrence_pattern := none,
            is_indoors := !(strContainsSub (pyStrLower venue.name) "outdoor"),
            is_streaming := strContainsSub (pyStrLower venue.name) "streaming",
            description_embedding := emb.1,
            event_text_embedding := emb.2,
            genres := genreIds }
        Except.ok
          { db := { db with events := db.events ++ [row],
                            nextEventId := db.nextEventId + 1 },
            event := row, st := flushedState OrmState.pending }

/-- Idempotent insert of one artist_relations edge (service.py lines
605-619). -/
def ensureRelation (db : DB) (aid rid : Nat) : DB :=
  if (db.artistRelations.find? (fun p => p.1 == aid && p.2 == rid)).isSome then db
  else { db with artistRelations := db.artistRelations ++ [(aid, rid)] }

/-- One pass of the related-artists loop (service.py lines 586-619): look
the related name up, create a name-only stub when absent (counting it
explicitly), then ensure the relation edge exists. -/
def processRelatedArtist (db : DB) (s : Summary) (aid : Nat) (rname : String) :
    DB × Summary :=
  match findArtistByName db rname with
  | some ra => (ensureRelation db aid ra.id, s)
  | none =>
      let ra : ArtistRow :=
        { id := db.nextArtistId, name := rname, wwoz_artist_href := none,
          description := none, popularity_score := none,
          typical_set_length := none, website := none,
          description_embedding := none, genres := [] }
      let db1 := { db with artists := db.artists ++ [ra],
                           nextArtistId := db.nextArtistId + 1 }
      let s1 := { s with artists_created := s.artists_created + 1 }
      (ensureRelation db1 aid ra.id, s1)

/-- The per-event body of _process_event_batch (service.py lines 554-629):
genres, artist upsert (counted only when the returned instance is
pending), venue upsert (same), related artists, event upsert (same).  An
exception from the event upsert propagates out of the batch body. -/
def processOneEvent (env : Env) (db : DB) (s : Summary) (ev : EventDTO) :
    Except String (DB × Summary) :=
  let g := collectGenres db ev.event_data.genres
  let ar := upsertArtist g.1 ev.artist_data g.2
  let s := if ar.st = OrmState.pending then
      { s with artists_created := s.artists_created + 1 } else s
  let vr := upsertVenue env ar.db ev.venue_data g.2
  let s := if vr.st = OrmState.pending then
      { s with venues_created := s.venues_created + 1 } else s
  let rel := ev.event_data.related_artists.foldl
    (fun acc rn => processRelatedArtist acc.1 acc.2 ar.artist.id rn) (vr.db, s)
  match upsertEvent env rel.1 ev.event_data ar.artist vr.venue g.2 with
  | Except.error e => Except.error e
  | Except.ok er =>
      let s2 := if er.st = OrmState.pending then
          { rel.2 with events_created := rel.2.events_created + 1 } else rel.2
      Except.ok (er.db, s2)

/-- _process_event_batch (service.py lines 534-657): fold the per-event
body over the batch starting from the all-zero summary, then commit; on an
exception the transaction is rolled back and the error re-raised (nothing
of the batch survives).  genres_created is never incremented anywhere in
the loop. -/
def processEventBatch (env : Env) (db : DB) (batch : List EventDTO) :
    Except String (DB × Summary) :=
  batch.foldlM (fun acc ev => processOneEvent env acc.1 acc.2 ev) (db, zeroSummary)

/-- First-occurrence deduplication, determinizing the Python set of genre
names in _ensure_genres_exist. -/
def dedupNames (l : List String) : List String :=
  l.foldl (fun acc n => if n ∈ acc then acc else acc ++ [n]) []

/-- _ensure_genres_exist (service.py lines 471-495): pre-create every
unique genre name appearing in the event records. -/
def ensureGenresExist (db : DB) (events : List EventDTO) : DB :=
  (dedupNames (events.foldl (fun acc ev => acc ++ ev.event_data.genres) [])).foldl
    (fun acc n => (getOrCreateGenre acc n).db) db

/-- The batch size constant of save_events (line 689). -/
def batchSize : Nat := 5

/-- The slicing loop of save_events: events[i : i + 5] for i = 0, 5, .... -/
def chunk5 {α : Type} : List α → List (List α)
  | a :: b :: c :: d :: e :: rest => [a, b, c, d, e] :: chunk5 rest
  | [] => []
  | l => [l]

/-- save_events (service.py lines 659-739) under deterministic batch
execution: pre-seed genres, then process each five-element batch,
aggregating the four creation counters of committed batches; a failed
batch is rolled back (its state discarded) and skipped.  The retry wrapper
re-raises a deterministic non-transient error unchanged, so it adds
nothing on this path. -/
def saveEvents (env : Env) (db : DB) (events : List EventDTO) : DB × Summary :=
  let db1 := ensureGenresExist db events
  (chunk5 events).foldl
    (fun acc batch =>
      match processEventBatch env acc.1 batch with
      | Except.ok r => (r.1, addSummary acc.2 r.2)
      | Except.error _ => acc)
    (db1, zeroSummary)

/-- Error classification of _process_event_batch_with_retry (service.py
lines 514-519): the lowercased exception text is searched for the three
contention markers. -/
def isTransientError (e : String) : Bool :=
  strContainsSub (pyStrLower e) "deadlock" ||
    strContainsSub (pyStrLower e) "lock timeout" ||
    strContainsSub (pyStrLower e) "concurrent update"

/-- max_retries (service.py line 509). -/
def maxRetries : Nat := 3

/-- Backoff delay slept after the failed attempt of the given index
(service.py lines 522-524): 0.1 * 2 ** attempt + 0.05 * attempt seconds,
in rationals. -/
def retryDelay (attempt : Nat) : ℚ :=
  1 / 10 * 2 ^ attempt + 1 / 20 * (attempt : ℚ)

/-- Observable trace of one _process_event_batch_with_retry call: the
value returned or the exception re-raised, how many attempts ran, and the
backoff delays slept in order. -/
structure RetryTrace where
  result : Except String Summary
  attempts : Nat
  sleeps : List ℚ
deriving Repr

/-- The retry loop (service.py lines 510-532) against an environment
oracle giving each attempts outcome.  fuel mirrors the remaining range
iterations and starts at maxRetries; the fuel-exhausted leaf is never
reached from the entry point because the final attempt always returns or
re-raises. -/
def retryLoop (outcome : Nat → Except String Summary) :
    Nat → Nat → List ℚ → RetryTrace
  | 0, attempt, sleeps =>
      { result := Except.error "", attempts := attempt, sleeps := sleeps.reverse }
  | fuel + 1, attempt, sleeps =>
      match outcome attempt with
      | Except.ok s =>
          { result := Except.ok s, attempts := attempt + 1, sleeps := sleeps.reverse }
      | Except.error e =>
          if isTransientError e && attempt < maxRetries - 1 then
            retryLoop outcome fuel (attempt + 1) (retryDelay attempt :: sleeps)
          else
            { result := Except.error e, attempts := attempt + 1,
              sleeps := sleeps.reverse }

/-- _process_event_batch_with_retry (service.py lines 497-532) as a trace
over the attempt-outcome oracle. -/
def processEventBatchWithRetry (outcome : Nat → Except String Summary) : RetryTrace :=
  retryLoop outcome maxRetries 0 []

/-- The batch loop of save_events (lines 693-712) over the per-batch
outcomes delivered by the retry wrapper: successful summaries are
aggregated key-wise, failures are counted and skipped.  The first
component is the dict save_events returns; the failure count is only
logged. -/
def saveEventsOutcomes (outcomes : List (Except String Summary)) : Summary × Nat :=
  outcomes.foldl
    (fun acc o =>
      match o with
      | Except.ok s => (addSummary acc.1 s, acc.2)
      | Except.error _ => (acc.1, acc.2 + 1))
    (zeroSummary, 0)

/-- save_events with the per-batch transaction abstracted to an executor:
the events are sliced into batches of five and each batch outcome is
folded as above. -/
def saveEventsOracle (events : List EventDTO)
    (exec : List EventDTO → Except String Summary) : Summary × Nat :=
  saveEventsOutcomes ((chunk5 events).map exec)

/-- The summary value save_events actually returns (failed_batches is not
part of it). -/
def saveEventsAggOnly (outcomes : List (Except String Summary)) : Summary :=
  (saveEventsOutcomes outcomes).1

/-- One CREATE INDEX statement of create_concurrency_indexes. -/
structure IndexDef where
  name : String
  table : String
  columns : List String
  unique : Bool
deriving DecidableEq, Repr

/-- The twelve index statements issued by
Database.create_concurrency_indexes (database.py lines 151-199), in
order. -/
def concurrencyIndexes : List IndexDef :=
  [ { name := "idx_artists_name", table := "artists", columns := ["name"],
      unique := true },
    { name := "idx_venues_name_address", table := "venues",
      columns := ["name", "full_address"], unique := true },
    { name := "idx_events_href", table := "events",
      columns := ["wwoz_event_href"], unique := true },
    { name := "idx_events_artist_venue", table := "events",
      columns := ["artist_id", "venue_id"], unique := false },
    { name := "idx_events_performance_time", table := "events",
      columns := ["performance_time"], unique := false },
    { name := "idx_artist_relations_unique", table := "artist_relations",
      columns := ["artist_id", "related_artist_id"], unique := true },
    { name := "idx_event_genres_event_id", table := "event_genres",
      columns := ["event_id"], unique := false },
    { name := "idx_event_genres_genre_id", table := "event_genres",
      columns := ["genre_id"], unique := false },
    { name := "idx_artist_genres_artist_id", table := "artist_genres",
      columns := ["artist_id"], unique := false },
    { name := "idx_artist_genres_genre_id", table := "artist_genres",
      columns := ["genre_id"], unique := false },
    { name := "idx_venue_genres_venue_id", table := "venue_genres",
      columns := ["venue_id"], unique := false },
    { name := "idx_venue_genres_genre_id", table := "venue_genres",
      columns := ["genre_id"], unique := false } ]

/-- PostgreSQL semantics of the unique index idx_artists_name: name is a
NOT NULL column, so any two rows agreeing on it are the same row. -/
def pgUniqueArtists (l : List ArtistRow) : Prop :=
  ∀ a ∈ l, ∀ b ∈ l, a.name = b.name → a = b

/-- PostgreSQL semantics of the unique index idx_venues_name_address:
rows agreeing on (name, full_address) are the same row, except that a NULL
full_address never conflicts (PostgreSQL unique indexes treat NULL entries
as distinct). -/
def pgUniqueVenues (l : List VenueRow) : Prop :=
  ∀ a ∈ l, ∀ b ∈ l,
    a.name = b.name → a.full_address = b.full_address → a.full_address ≠ none → a = b

/-- PostgreSQL semantics of the unique index idx_events_href: rows agreeing
on a non-NULL wwoz_event_href are the same row; NULL hrefs never
conflict. -/
def pgUniqueEvents (l : List EventRow) : Prop :=
  ∀ a ∈ l, ∀ b ∈ l,
    a.wwoz_event_href = b.wwoz_event_href → a.wwoz_event_href ≠ none → a = b

/-- Staleness condition as needs_geocoding actually decides it, written in
spec terms: a coordinate is absent or zero, or last_geocoded is absent, or
the venue was geocoded at least 31 whole days before now. -/
def staleSpec (w : VenueRow) (now : ℤ) : Prop :=
  w.latitude = none ∨ w.latitude = some 0 ∨ w.longitude = none ∨ w.longitude = some 0 ∨
    w.last_geocoded = none ∨
    (∃ t, w.last_geocoded = some t ∧ 31 * 86400 ≤ now - t)

/-- Conclusion of the retry-controller claim: at most maxRetries attempts;
the sleeps are exactly retryDelay 0, retryDelay 1, ... for the non-final
failed attempts; every attempt that was followed by a retry failed with a
transient error; the overall result is the outcome of the last attempt run
(re-raise semantics); an error escapes only when it is non-transient or the
final attempt failed; and the delay formula is 0.1 * 2 ^ k + 0.05 * k. -/
def C4Concl (outcome : Nat → Except String Summary) : Prop :=
  (processEventBatchWithRetry outcome).attempts ≤ maxRetries
  ∧ (processEventBatchWithRetry outcome).sleeps =
      (List.range ((processEventBatchWithRetry outcome).attempts - 1)).map retryDelay
  ∧ (∀ k, k + 1 < (processEventBatchWithRetry outcome).attempts →
      ∃ e, outcome k = Except.error e ∧ isTransientError e = true)
  ∧ (processEventBatchWithRetry outcome).result =
      outcome ((processEventBatchWithRetry outcome).attempts - 1)
  ∧ (∀ e, (processEventBatchWithRetry outcome).result = Except.error e →
      isTransientError e = false ∨ (processEventBatchWithRetry outcome).attempts = maxRetries)
  ∧ (∀ k, retryDelay k = 1 / 10 * 2 ^ k + 1 / 20 * (k : ℚ))

/-- Conclusion of the artist-merge claim, for an upsert that hit an
existing row: the three supplied columns follow the COALESCE merge (in
particular a null supplied value leaves the stored value alone), and every
other scalar column is untouched. -/
def C5Concl (db : DB) (d : ArtistData) (gids : List Nat) (old : ArtistRow) : Prop :=
  (upsertArtist db d gids).artist.id = old.id
  ∧ (upsertArtist db d gids).artist.name = old.name
  ∧ (upsertArtist db d gids).artist.wwoz_artist_href =
      sqlCoalesce d.wwoz_artist_href old.wwoz_artist_href
  ∧ (upsertArtist db d gids).artist.description =
      sqlCoalesce d.description old.description
  ∧ (upsertArtist db d gids).artist.website = sqlCoalesce d.website old.website
  ∧ (d.wwoz_artist_href = none →
      (upsertArtist db d gids).artist.wwoz_artist_href = old.wwoz_artist_href)
  ∧ (d.description = none →
      (upsertArtist db d gids).artist.description = old.description)
  ∧ (d.website = none → (upsertArtist db d gids).artist.website = old.website)
  ∧ (upsertArtist db d gids).artist.popularity_score = old.popularity_score
  ∧ (upsertArtist db d gids).artist.typical_set_length = old.typical_set_length
  ∧ (upsertArtist db d gids).artist.description_embedding = old.description_embedding

/-- Conclusion of the venue conflict-branch claim: a null supplied value
never changes the stored column, and the columns outside the DO UPDATE SET
list are untouched. -/
def C6Concl (old : VenueRow) (vals : VenueInsertValues) : Prop :=
  (vals.phone_number = none →
    (mergeVenueOnConflict old vals).phone_number = old.phone_number)
  ∧ (vals.thoroughfare = none →
      (mergeVenueOnConflict old vals).thoroughfare = old.thoroughfare)
  ∧ (vals.locality = none → (mergeVenueOnConflict old vals).locality = old.locality)
  ∧ (vals.state = none → (mergeVenueOnConflict old vals).state = old.state)
  ∧ (vals.postal_code = none →
      (mergeVenueOnConflict old vals).postal_code = old.postal_code)
  ∧ (vals.wwoz_venue_href = none →
      (mergeVenueOnConflict old vals).wwoz_venue_href = old.wwoz_venue_href)
  ∧ (vals.website = none → (mergeVenueOnConflict old vals).website = old.website)
  ∧ (mergeVenueOnConflict old vals).id = old.id
  ∧ (mergeVenueOnConflict old vals).name = old.name
  ∧ (mergeVenueOnConflict old vals).full_address = old.full_address
  ∧ (mergeVenueOnConflict old vals).description = old.description
  ∧ (mergeVenueOnConflict old vals).capacity = old.capacity
  ∧ (mergeVenueOnConflict old vals).venue_info_embedding = old.venue_info_embedding
  ∧ (mergeVenueOnConflict old vals).genres = old.genres

/-- Conclusion of the existing-event frame claim: the upsert succeeds, the
description of its result follows the back-fill rule (set only from a
truthy supplied value over a falsy stored one), the genre set follows the
non-empty-replacement rule, and every other column of the row is
untouched. -/
def C8Concl (env : Env) (db : DB) (d : EventData) (a : ArtistRow) (v : VenueRow)
    (gids : List Nat) (ex : EventRow) : Prop :=
  ∃ r, upsertEvent env db d a v gids = Except.ok r
    ∧ r.event.description =
        (if pyTruthyStr d.description && !(pyTruthyStr ex.description) then
          d.description
         else ex.description)
    ∧ r.event.genres = (if gids.isEmpty then ex.genres else gids)
    ∧ (ex.description = none → pyTruthyStr d.description = true →
        r.event.description = d.description)
    ∧ (∀ s, ex.description = some s → ¬(s = "") →
        r.event.description = ex.description)
    ∧ r.event.id = ex.id
    ∧ r.event.wwoz_event_href = ex.wwoz_event_href
    ∧ r.event.artist_id = ex.artist_id
    ∧ r.event.venue_id = ex.venue_id
    ∧ r.event.artist_name = ex.artist_name
    ∧ r.event.venue_name = ex.venue_name
    ∧ r.event.performance_time = ex.performance_time
    ∧ r.event.end_time = ex.end_time
    ∧ r.event.scrape_time = ex.scrape_time
    ∧ r.event.is_recurring = ex.is_recurring
    ∧ r.event.recurrence_pattern = ex.recurrence_pattern
    ∧ r.event.is_indoors = ex.is_indoors
    ∧ r.event.is_streaming = ex.is_streaming
    ∧ r.event.description_embedding = ex.description_embedding
    ∧ r.event.event_text_embedding = ex.event_text_embedding

/-- Conclusion of the amended href-less event claim, for a NULL href: the
upsert performs no lookup and appends a brand-new row (NULL entries never
conflict on the unique index), and doing it twice appends two rows. -/
def C9Concl (env : Env) (db : DB) (d : EventData) (a : ArtistRow) (v : VenueRow)
    (gids : List Nat) : Prop :=
  ∃ r, upsertEvent env db d a v gids = Except.ok r
    ∧ r.db.events = db.events ++ [r.event]
    ∧ r.event.id = db.nextEventId
    ∧ r.db.nextEventId = db.nextEventId + 1
    ∧ ∃ r2, upsertEvent env r.db d a v gids = Except.ok r2
        ∧ r2.db.events.length = db.events.length + 2

/-- External collaborators fixed for the concrete evaluations: a constant
geocode result, a constant one-entry embedding, clock at zero. -/
def demoEnv : Env :=
  { geocode := fun _ => (3, -9), embed := fun _ => [1], now := 0 }

/-- The end-to-end example record of the spec: Kermit Ruffins at the Blue
Nile, event href /events/789, genres Jazz and Blues. -/
def kermitDTO : EventDTO :=
  { artist_data :=
      { name := "Kermit Ruffins", description := none, genres := [],
        related_artists := [], wwoz_artist_href := none, website := none },
    venue_data :=
      { name := "Blue Nile", thoroughfare := none, phone_number := none,
        locality := some "New Orleans", state := some "LA", postal_code := none,
        full_address := some "532 Frenchmen St, New Orleans, LA 70116",
        is_active := true, website := none, wwoz_venue_href := none,
        event_artist := none },
    event_data :=
      { event_date := 100, wwoz_event_href := some "/events/789",
        event_artist := none, wwoz_artist_href := none, description := none,
        related_artists := [], genres := ["Jazz", "Blues"] },
    performance_time := 100, scrape_time := 0 }

/-- First save_events run of the example record on the empty database. -/
def kermitRun1 : DB × Summary := saveEvents demoEnv emptyDB [kermitDTO]

/-- Second save_events run of the same record on the resulting state. -/
def kermitRun2 : DB × Summary := saveEvents demoEnv kermitRun1.1 [kermitDTO]

/-- An event row with no external href, as upsert_event creates for
href-less records. -/
def nullHrefEvent (i : Nat) : EventRow :=
  { id := i, wwoz_event_href := none, description := none, artist_id := none,
    venue_id := none, artist_name := none, venue_name := none,
    performance_time := 0, end_time := none, scrape_time := 0,
    is_recurring := false, recurrence_pattern := none, is_indoors := true,
    is_streaming := false, description_embedding := none,
    event_text_embedding := none, genres := [] }

/-- A geocoded venue row used for the staleness examples. -/
def baseVenueRow : VenueRow :=
  { id := 1, name := "V", phone_number := none, thoroughfare := none,
    locality := none, state := none, postal_code := none,
    full_address := some "addr", wwoz_venue_href := none, website := none,
    is_active := true, latitude := some 3, longitude := some 4,
    capacity := none, is_indoors := true, is_streaming := false,
    last_geocoded := some 0, description := none,
    venue_info_embedding := none, genres := [] }

/-- A venue whose latitude is present but equal to zero, geocoded just
now. -/
def zeroLatVenue : VenueRow :=
  { baseVenueRow with latitude := some 0, longitude := some 1 }

/-- A venue geocoded 31 days before the reference time. -/
def staleVenue : VenueRow :=
  { baseVenueRow with last_geocoded := some (-31 * 86400) }

/-- A venue geocoded 10 days before the reference time. -/
def freshVenue : VenueRow :=
  { baseVenueRow with last_geocoded := some (-10 * 86400) }

/-- Summary of a committed example batch for the failed-batch claim. -/
def c3sum : Summary :=
  { artists_created := 2, venues_created := 1, genres_created := 0,
    events_created := 3 }

/-- A minimal href-less input record, parameterized to keep records
distinct. -/
def dtoN (k : ℤ) : EventDTO :=
  { artist_data :=
      { name := "A", description := none, genres := [], related_artists := [],
        wwoz_artist_href := none, website := none },
    venue_data :=
      { name := "V", thoroughfare := none, phone_number := none,
        locality := none, state := none, postal_code := none,
        full_address := none, is_active := true, website := none,
        wwoz_venue_href := none, event_artist := none },
    event_data :=
      { event_date := k, wwoz_event_href := none, event_artist := none,
        wwoz_artist_href := none, description := none, related_artists := [],
        genres := [] },
    performance_time := k, scrape_time := 0 }

/-- First batch of the 11-record example job. -/
def c3b1 : List EventDTO := [dtoN 0, dtoN 1, dtoN 2, dtoN 3, dtoN 4]

/-- Second batch of the 11-record example job, the one engineered to
fail. -/
def c3b2 : List EventDTO := [dtoN 5, dtoN 6, dtoN 7, dtoN 8, dtoN 9]

/-- Third batch of the 11-record example job. -/
def c3b3 : List EventDTO := [dtoN 10]

/-- The 11-record input, slicing into exactly three batches of five. -/
def c3events : List EventDTO := c3b1 ++ c3b2 ++ c3b3

/-- Committed counts of the first example batch. -/
def c3s1 : Summary :=
  { artists_created := 2, venues_created := 1, genres_created := 0,
    events_created := 5 }

/-- Committed counts of the third example batch. -/
def c3s3 : Summary :=
  { artists_created := 0, venues_created := 0, genres_created := 0,
    events_created := 1 }

/-- Batch executor for the example job: batch 2 fails fatally, batches 1
and 3 commit. -/
def c3exec : List EventDTO → Except String Summary := fun b =>
  if b = c3b2 then Except.error "could not serialize access"
  else if b = c3b1 then Except.ok c3s1
  else Except.ok c3s3

/-- Artist data carrying only a name (first sighting). -/
def c5first : ArtistData :=
  { name := "Kermit Ruffins", description := none, genres := [],
    related_artists := [], wwoz_artist_href := none, website := none }

/-- The same artist sighted again, now with a description. -/
def c5second : ArtistData := { c5first with description := some "Trumpeter and singer" }

/-- Database state after the first name-only artist upsert. -/
def c5db : DB := (upsertArtist emptyDB c5first []).db

/-- The row the first artist upsert created. -/
def c5old : ArtistRow := (upsertArtist emptyDB c5first []).artist

/-- An existing event row with a null description, for the back-fill
witness. -/
def c8ex : EventRow :=
  { id := 1, wwoz_event_href := some "/events/42", description := none,
    artist_id := some 1, venue_id := some 1, artist_name := some "A",
    venue_name := some "V", performance_time := 50, end_time := none,
    scrape_time := 0, is_recurring := false, recurrence_pattern := none,
    is_indoors := true, is_streaming := false, description_embedding := none,
    event_text_embedding := none, genres := [1] }

/-- A database holding only that event. -/
def c8db : DB := { emptyDB with events := [c8ex], nextEventId := 2 }

/-- Event data re-sighting the same href with a description supplied. -/
def c8data : EventData :=
  { event_date := 50, wwoz_event_href := some "/events/42",
    event_artist := none, wwoz_artist_href := none,
    description := some "Late night jazz", related_artists := [], genres := [] }

/-- A resolved artist row for the event upsert calls. -/
def c8artist : ArtistRow :=
  { id := 1, name := "A", wwoz_artist_href := none, description := none,
    popularity_score := none, typical_set_length := none, website := none,
    description_embedding := none, genres := [] }

/-- A resolved venue row for the event upsert calls. -/
def c8venue : VenueRow := { baseVenueRow with name := "V" }

/-- The same existing event but with an empty-string description. -/
def c8exEmpty : EventRow := { c8ex with description := some "" }

/-- A database holding the empty-description event. -/
def c8dbEmpty : DB := { emptyDB with events := [c8exEmpty], nextEventId := 2 }

/-- Event data with an empty-string href: falsy in Python (the dedup
lookup is skipped) yet a non-NULL value for the unique index
idx_events_href. -/
def c9data : EventData :=
  { event_date := 77, wwoz_event_href := some "", event_artist := none,
    wwoz_artist_href := none, description := none, related_artists := [],
    genres := [] }

/-- The database after the first load of the empty-string-href record into
c8db: that insert succeeds because no empty-string-href row exists yet
(the error branch of the match is unreachable here). -/
def c9dbAfter : DB :=
  match upsertEvent demoEnv c8db c9data c8artist c8venue [] with
  | Except.ok r => r.db
  | Except.error _ => c8db

/-- Attempt oracle whose first attempt deadlocks and whose second attempt
succeeds. -/
def c4outcome : Nat → Except String Summary := fun k =>
  if k = 0 then Except.error "Deadlock detected" else Except.ok c3sum

end FestLoad

open FestLoad

/-- COALESCE with a null first operand keeps the stored value. -/
@[simp] theorem sqlCoalesce_none_left {α : Type} (b : Option α) :
    sqlCoalesce none b = b := rfl

/-- COALESCE with a present first operand takes it. -/
@[simp] theorem sqlCoalesce_some_left {α : Type} (a : α) (b : Option α) :
    sqlCoalesce (some a) b = some a := rfl

/-- The floored day count of a second difference exceeds 30 exactly when at
least 31 full days of seconds have elapsed. -/
theorem timedeltaDays_gt_30 (d : ℤ) : 30 < timedeltaDays d ↔ 31 * 86400 ≤ d := by
  unfold timedeltaDays
  rw [Int.fdiv_eq_ediv _ (by norm_num)]
  omega

/-- Claim C1, behavior at the failing input: one save_events run of the
example record (Kermit Ruffins at the Blue Nile, href /events/789, genres
Jazz and Blues) on the empty database does create one artist, one venue,
two genres and one event row, yet returns the all-zero summary rather than
the counts 1, 1, 2, 1 the claim states; the second run also returns all
zeros and leaves the database exactly unchanged (zero net new rows). -/
theorem claim_C1_failing_run :
    kermitRun1.2 = zeroSummary
    ∧ kermitRun1.1.artists.length = 1
    ∧ kermitRun1.1.venues.length = 1
    ∧ kermitRun1.1.genres.length = 2
    ∧ kermitRun1.1.events.length = 1
    ∧ kermitRun2.2 = zeroSummary
    ∧ kermitRun2.1 = kermitRun1.1
    ∧ kermitRun1.2 ≠
        { artists_created := 1, venues_created := 1, genres_created := 2,
          events_created := 1 } := by
  refine ⟨by decide, by decide, by decide, by decide, by decide, by decide,
    by decide, by decide⟩

/-- Claim C2, counterexample: the declared unique index on
events(wwoz_event_href) does not make key values differ across every pair
of distinct rows, because PostgreSQL unique indexes never conflict on NULL
entries: two distinct event rows with a null href satisfy the index
semantics while sharing the same (null) key value. -/
theorem claim_C2_counterexample :
    pgUniqueEvents [nullHrefEvent 1, nullHrefEvent 2]
    ∧ nullHrefEvent 1 ≠ nullHrefEvent 2
    ∧ (nullHrefEvent 1).wwoz_event_href = (nullHrefEvent 2).wwoz_event_href := by
  refine ⟨?_, by decide, by decide⟩
  unfold pgUniqueEvents
  decide

/-- Claim C2, amended: the persisted schema does declare the three unique
indexes (Artist(name), Venue(name, full_address), Event(wwoz_event_href)),
and under PostgreSQL unique-index semantics any two distinct rows differ on
the corresponding key whenever the nullable key columns involved are
non-null; rows whose key columns are NULL are not constrained. -/
theorem claim_C2_amended :
    ((⟨"idx_artists_name", "artists", ["name"], true⟩ : IndexDef) ∈ concurrencyIndexes
      ∧ (⟨"idx_venues_name_address", "venues", ["name", "full_address"], true⟩ :
          IndexDef) ∈ concurrencyIndexes
      ∧ (⟨"idx_events_href", "events", ["wwoz_event_href"], true⟩ : IndexDef) ∈
          concurrencyIndexes)
    ∧ (∀ l, pgUniqueArtists l → ∀ a ∈ l, ∀ b ∈ l, a ≠ b → a.name ≠ b.name)
    ∧ (∀ l, pgUniqueVenues l → ∀ a ∈ l, ∀ b ∈ l, a ≠ b → a.full_address ≠ none →
        ¬(a.name = b.name ∧ a.full_address = b.full_address))
    ∧ (∀ l, pgUniqueEvents l → ∀ a ∈ l, ∀ b ∈ l, a ≠ b → a.wwoz_event_href ≠ none →
        a.wwoz_event_href ≠ b.wwoz_event_href) := by
  refine ⟨⟨by decide, by decide, by decide⟩, ?_, ?_, ?_⟩
  · intro l h a ha b hb hne heq
    exact hne (h a ha b hb heq)
  · intro l h a ha b hb hne hfa hpair
    exact hne (h a ha b hb hpair.1 hpair.2 hfa)
  · intro l h a ha b hb hne hfa heq
    exact hne (h a ha b hb heq hfa)

/-- Claim C3, counterexample: the dict save_events returns carries only the
four creation counters, so it cannot report the number of failed batches:
two jobs, one with a failed second batch and one with a successful empty
second batch, return identical summaries while their failed-batch counts
are 1 and 0. -/
theorem claim_C3_counterexample :
    saveEventsAggOnly [Except.ok c3sum, Except.error "connection reset"] =
        saveEventsAggOnly [Except.ok c3sum, Except.ok zeroSummary]
    ∧ (saveEventsOutcomes [Except.ok c3sum, Except.error "connection reset"]).2 = 1
    ∧ (saveEventsOutcomes [Except.ok c3sum, Except.ok zeroSummary]).2 = 0 := by
  refine ⟨by decide, by decide, by decide⟩

/-- Claim C3, amended: when the three batches of a job run so that batch 2
fails fatally while batches 1 and 3 commit, save_events neither aborts nor
loses the committed work: it aggregates exactly the counts of batches 1
and 3 into the returned summary, and the failed-batch count it computes
(and logs, without returning it) is exactly 1. -/
theorem claim_C3_amended (events : List EventDTO)
    (exec : List EventDTO → Except String Summary)
    (b1 b2 b3 : List EventDTO) (s1 s3 : Summary) (e : String)
    (hc : chunk5 events = [b1, b2, b3])
    (h1 : exec b1 = Except.ok s1) (h2 : exec b2 = Except.error e)
    (h3 : exec b3 = Except.ok s3) :
    saveEventsOracle events exec = (addSummary (addSummary zeroSummary s1) s3, 1) := by
  simp [saveEventsOracle, saveEventsOutcomes, hc, h1, h2, h3]

/-- Claim C3, witness: the concrete 11-record job slicing into three
batches, with batch 2 engineered to fail. -/
theorem claim_C3_witness :
    saveEventsOracle c3events c3exec =
      (addSummary (addSummary zeroSummary c3s1) c3s3, 1) :=
  claim_C3_amended c3events c3exec c3b1 c3b2 c3b3 c3s1 c3s3
    "could not serialize access" rfl rfl rfl rfl

/-- Claim C4: for every batch attempt sequence, the retry controller makes
at most 3 attempts; an error containing "deadlock", "lock timeout" or
"concurrent update" (case-folded) is transient and triggers a retry after
sleeping 0.1 * 2 ^ k + 0.05 * k seconds for failed attempt k; every
attempt that was retried had failed transiently; the call returns or
re-raises exactly the outcome of its last attempt; and an error escapes
only when it is non-transient or arose on the final attempt. -/
theorem claim_C4 (outcome : Nat → Except String Summary) : C4Concl outcome := by
  unfold C4Concl
  rcases h0 : outcome 0 with e0 | s0
  · cases ht0 : isTransientError e0
    · have ht : processEventBatchWithRetry outcome =
          { result := Except.error e0, attempts := 1, sleeps := [] } := by
        simp [processEventBatchWithRetry, retryLoop, maxRetries, h0, ht0]
      rw [ht]
      refine ⟨by simp [maxRetries], by simp, ?_, ?_, ?_, fun k => rfl⟩
      · intro k hk
        simp at hk
      · simpa using h0.symm
      · intro e he
        injection he with h
        exact Or.inl (h ▸ ht0)
    · rcases h1 : outcome 1 with e1 | s1
      · cases ht1 : isTransientError e1
        · have ht : processEventBatchWithRetry outcome =
              { result := Except.error e1, attempts := 2,
                sleeps := [retryDelay 0] } := by
            simp [processEventBatchWithRetry, retryLoop, maxRetries, h0, ht0, h1, ht1]
          rw [ht]
          refine ⟨by simp [maxRetries], by simp [List.range_succ], ?_, ?_, ?_,
            fun k => rfl⟩
          · intro k hk
            simp at hk
            have hk0 : k = 0 := by omega
            subst hk0
            exact ⟨e0, h0, ht0⟩
          · simpa using h1.symm
          · intro e he
            injection he with h
            exact Or.inl (h ▸ ht1)
        · rcases h2 : outcome 2 with e2 | s2
          · have ht : processEventBatchWithRetry outcome =
                { result := Except.error e2, attempts := 3,
                  sleeps := [retryDelay 0, retryDelay 1] } := by
              simp [processEventBatchWithRetry, retryLoop, maxRetries, h0, ht0, h1,
                ht1, h2]
            rw [ht]
            refine ⟨by simp [maxRetries], by simp [List.range_succ], ?_, ?_, ?_,
              fun k => rfl⟩
            · intro k hk
              simp at hk
              have hk01 : k = 0 ∨ k = 1 := by omega
              rcases hk01 with rfl | rfl
              · exact ⟨e0, h0, ht0⟩
              · exact ⟨e1, h1, ht1⟩
            · simpa using h2.symm
            · intro e he
              exact Or.inr rfl
          · have ht : processEventBatchWithRetry outcome =
                { result := Except.ok s2, attempts := 3,
                  sleeps := [retryDelay 0, retryDelay 1] } := by
              simp [processEventBatchWithRetry, retryLoop, maxRetries, h0, ht0, h1,
                ht1, h2]
            rw [ht]
            refine ⟨by simp [maxRetries], by simp [List.range_succ], ?_, ?_, ?_,
              fun k => rfl⟩
            · intro k hk
              simp at hk
              have hk01 : k = 0 ∨ k = 1 := by omega
              rcases hk01 with rfl | rfl
              · exact ⟨e0, h0, ht0⟩
              · exact ⟨e1, h1, ht1⟩
            · simpa using h2.symm
            · intro e he
              exact absurd he (by simp)
      · have ht : processEventBatchWithRetry outcome =
            { result := Except.ok s1, attempts := 2, sleeps := [retryDelay 0] } := by
          simp [processEventBatchWithRetry, retryLoop, maxRetries, h0, ht0, h1]
        rw [ht]
        refine ⟨by simp [maxRetries], by simp [List.range_succ], ?_, ?_, ?_,
          fun k => rfl⟩
        · intro k hk
          simp at hk
          have hk0 : k = 0 := by omega
          subst hk0
          exact ⟨e0, h0, ht0⟩
        · simpa using h1.symm
        · intro e he
          exact absurd he (by simp)
  · have ht : processEventBatchWithRetry outcome =
        { result := Except.ok s0, attempts := 1, sleeps := [] } := by
      simp [processEventBatchWithRetry, retryLoop, maxRetries, h0]
    rw [ht]
    refine ⟨by simp [maxRetries], by simp, ?_, ?_, ?_, fun k => rfl⟩
    · intro k hk
      simp at hk
    · simpa using h0.symm
    · intro e he
      exact absurd he (by simp)

/-- Claim C5: when the artist upsert hits an existing row, the three
supplied columns (href, description, website) are merged with COALESCE —
a non-null supplied value is written, a null supplied value leaves the
stored value in place, and a present stored value is never replaced by an
absent one — while name, id and the remaining columns are untouched. -/
theorem claim_C5 (db : DB) (d : ArtistData) (gids : List Nat) (old : ArtistRow)
    (h : findArtistByName db d.name = some old) : C5Concl db d gids old := by
  have hr : (upsertArtist db d gids).artist =
      (if gids.isEmpty then mergeArtistOnConflict old d
       else { mergeArtistOnConflict old d with genres := gids }) := by
    unfold upsertArtist
    rw [h]
  unfold C5Concl
  rw [hr]
  cases hg : gids.isEmpty <;>
    simp [hg, mergeArtistOnConflict] <;>
    refine ⟨fun hh => by simp [hh], fun hh => by simp [hh], fun hh => by simp [hh]⟩

/-- Claim C5, witness: upserting the artist first with only a name and then
again with a description yields a row carrying both the name and the
description. -/
theorem claim_C5_witness :
    C5Concl c5db c5second [] c5old
    ∧ (upsertArtist c5db c5second []).artist.name = "Kermit Ruffins"
    ∧ (upsertArtist c5db c5second []).artist.description =
        some "Trumpeter and singer" :=
  ⟨claim_C5 c5db c5second [] c5old (by decide), by decide, by decide⟩

/-- Claim C6: the DO UPDATE SET branch of the venue insert never changes a
column whose supplied value is null (the seven nullable text columns are
COALESCE-merged; is_active, the coordinates, last_geocoded and the flags
are always bound to non-null values by construction), and the columns it
does not mention — id, name, full_address, description, capacity, the
embedding and the genre links — are untouched. -/
theorem claim_C6 (old : VenueRow) (vals : VenueInsertValues) : C6Concl old vals := by
  unfold C6Concl mergeVenueOnConflict
  refine ⟨fun hh => by simp [hh], fun hh => by simp [hh], fun hh => by simp [hh],
    fun hh => by simp [hh], fun hh => by simp [hh], fun hh => by simp [hh],
    fun hh => by simp [hh], rfl, rfl, rfl, rfl, rfl, rfl, rfl⟩

/-- Claim C7, counterexample: needs_geocoding is not characterized by
absent coordinates, absent last_geocoded, or an age of more than 30 days:
a venue whose latitude is present but equal to 0.0 (with longitude present
and a last_geocoded of this instant) is reported as needing geocoding,
because Python truthiness treats the float 0.0 like an absent value. -/
theorem claim_C7_counterexample :
    needsGeocoding zeroLatVenue 0 = true
    ∧ zeroLatVenue.latitude.isSome = true
    ∧ zeroLatVenue.longitude.isSome = true
    ∧ zeroLatVenue.last_geocoded = some 0
    ∧ ¬(30 * 86400 < (0 : ℤ) - 0) := by
  refine ⟨by decide, by decide, by decide, by decide, by decide⟩

/-- Claim C7, amended: needs_geocoding returns true exactly when a
coordinate is absent or zero, or last_geocoded is absent, or the venue was
geocoded at least 31 whole days ago (the .days of the timedelta, a floored
count, must strictly exceed 30); upsert_venue invokes the geocoding
provider for an existing venue exactly when needs_geocoding holds; a venue
geocoded 31 days ago is re-geocoded on the next upsert, one geocoded 10
days ago is not. -/
theorem claim_C7_amended :
    (∀ w now, needsGeocoding w now = true ↔ staleSpec w now)
    ∧ (∀ (env : Env) (db : DB) (d : VenueData) (gids : List Nat) (v : VenueRow),
        findVenueByNameAddress db d.name d.full_address = some v →
          (upsertVenue env db d gids).geocoded =
            if needsGeocoding v env.now then 1 else 0)
    ∧ needsGeocoding staleVenue 0 = true
    ∧ needsGeocoding freshVenue 0 = false := by
  refine ⟨?_, ?_, by decide, by decide⟩
  · intro w now
    unfold needsGeocoding staleSpec
    rcases hlat : w.latitude with _ | ql <;> rcases hlng : w.longitude with _ | qr <;>
      rcases hlg : w.last_geocoded with _ | t <;>
      simp [pyFalsyNum, timedeltaDays_gt_30, hlat, hlng, hlg]
    all_goals tauto
  · intro env db d gids v h
    unfold upsertVenue
    rw [h]

/-- Claim C8, counterexample: the description back-fill does not require a
null stored description: an existing event whose description is the
(non-null) empty string is mutated when a non-empty description is
supplied, because the Python check uses truthiness rather than a null
test. -/
theorem claim_C8_counterexample :
    findEventByHref c8dbEmpty (some "/events/42") = some c8exEmpty
    ∧ c8exEmpty.description = some ""
    ∧ ¬(c8exEmpty.description = none)
    ∧ (∃ r, upsertEvent demoEnv c8dbEmpty c8data c8artist c8venue [] = Except.ok r
        ∧ r.event.description = some "Late night jazz") := by
  refine ⟨by decide, by decide, by decide, ⟨_, rfl, by decide⟩⟩

/-- Claim C8, amended: when an event with the supplied truthy href already
exists, the only mutations are the description — set exactly when the
stored description is null or empty and the supplied one is non-null and
non-empty — and the genre associations — replaced exactly when the
supplied genre list is non-empty; every other column of the stored row
(id, href, artist and venue references and names, performance and scrape
times, recurrence fields, flags, embeddings) is left unchanged. -/
theorem claim_C8_amended (env : Env) (db : DB) (d : EventData) (a : ArtistRow)
    (v : VenueRow) (gids : List Nat) (ex : EventRow)
    (h1 : pyTruthyStr d.wwoz_event_href = true)
    (h2 : findEventByHref db d.wwoz_event_href = some ex) :
    C8Concl env db d a v gids ex := by
  have hr : upsertEvent env db d a v gids =
      Except.ok
        { db := { db with events :=
            updateEventRow db.events (existingEventUpdate d gids ex) },
          event := existingEventUpdate d gids ex, st := fetchedState } := by
    simp [upsertEvent, h1, h2]
  unfold C8Concl
  refine ⟨_, hr, ?_⟩
  unfold existingEventUpdate
  cases hg : gids.isEmpty <;>
    cases hd : (pyTruthyStr d.description && !(pyTruthyStr ex.description)) <;>
    simp [hg, hd]
  all_goals
    first
    | (intro hexn hdt
       rw [hexn, hdt] at hd
       simp [pyTruthyStr] at hd)
    | (intro s hs hne
       have hsne : (s == "") = false := by simp [hne]
       rw [hs] at hd
       simp [pyTruthyStr, hsne] at hd)

/-- Claim C8, witness: the back-fill at a concrete existing event whose
description is null and whose re-sighting supplies one. -/
theorem claim_C8_witness : C8Concl demoEnv c8db c8data c8artist c8venue [] c8ex :=
  claim_C8_amended demoEnv c8db c8data c8artist c8venue [] c8ex (by decide)
    (by decide)

/-- Claim C9, counterexample: re-loading the same empty-string-href record
does not insert an additional row on every run: the empty-string href is
falsy, so the dedup lookup is skipped and an insert is attempted, but the
empty string is a non-NULL key of the unique index idx_events_href — the
first load inserts one row, and the second load raises the duplicate-key
error (re-raised by upsert_event for a falsy href) instead of creating a
row. -/
theorem claim_C9_counterexample :
    pyTruthyStr c9data.wwoz_event_href = false
    ∧ c9data.wwoz_event_href = some ""
    ∧ (∃ r, upsertEvent demoEnv c8db c9data c8artist c8venue [] = Except.ok r
        ∧ r.db = c9dbAfter)
    ∧ c9dbAfter.events.length = c8db.events.length + 1
    ∧ upsertEvent demoEnv c9dbAfter c9data c8artist c8venue [] =
        Except.error dupKeyError := by
  refine ⟨by decide, by decide, ⟨_, rfl, rfl⟩, by decide, rfl⟩

/-- Claim C9, amended: when wwoz_event_href is null, no existing-event
lookup is performed and a new row is always created — re-loading the same
null-href record inserts an additional row on every run, since NULL
entries never conflict on the unique index.  When the href is the empty
string the lookup is likewise skipped (it never deduplicates to an
existing row) and an insert is attempted: it succeeds while no
empty-string-href row exists, and raises the duplicate-key error of
idx_events_href — re-raised to the caller — once one does. -/
theorem claim_C9_amended :
    (∀ (env : Env) (db : DB) (d : EventData) (a : ArtistRow) (v : VenueRow)
        (gids : List Nat), d.wwoz_event_href = none → C9Concl env db d a v gids)
    ∧ (∀ (env : Env) (db : DB) (d : EventData) (a : ArtistRow) (v : VenueRow)
        (gids : List Nat), d.wwoz_event_href = some "" →
        findEventByHref db (some "") = none →
          ∃ r, upsertEvent env db d a v gids = Except.ok r
            ∧ r.db.events = db.events ++ [r.event]
            ∧ r.event.id = db.nextEventId)
    ∧ (∀ (env : Env) (db : DB) (d : EventData) (a : ArtistRow) (v : VenueRow)
        (gids : List Nat), d.wwoz_event_href = some "" →
        (findEventByHref db (some "")).isSome = true →
          upsertEvent env db d a v gids = Except.error dupKeyError) := by
  refine ⟨?_, ?_, ?_⟩
  · intro env db d a v gids h
    unfold C9Concl
    simp [upsertEvent, h, pyTruthyStr]
  · intro env db d a v gids h h2
    simp [upsertEvent, h, h2, pyTruthyStr]
  · intro env db d a v gids h h2
    simp [upsertEvent, h, h2, pyTruthyStr]

/-- Claim C10: for an entity that already exists, each of the three upserts
replaces the whole genre association set by the supplied list when that
list is non-empty, and leaves the existing associations unchanged when the
supplied list is empty. -/
theorem claim_C10 :
    (∀ (db : DB) (d : ArtistData) (gids : List Nat) (old : ArtistRow),
      findArtistByName db d.name = some old →
        ((¬gids = [] → (upsertArtist db d gids).artist.genres = gids)
          ∧ (gids = [] → (upsertArtist db d gids).artist.genres = old.genres)))
    ∧ (∀ (env : Env) (db : DB) (d : VenueData) (gids : List Nat) (v : VenueRow),
        findVenueByNameAddress db d.name d.full_address = some v →
          ((¬gids = [] → (upsertVenue env db d gids).venue.genres = gids)
            ∧ (gids = [] → (upsertVenue env db d gids).venue.genres = v.genres)))
    ∧ (∀ (env : Env) (db : DB) (d : EventData) (a : ArtistRow) (v : VenueRow)
        (gids : List Nat) (ex : EventRow),
        pyTruthyStr d.wwoz_event_href = true →
        findEventByHref db d.wwoz_event_href = some ex →
          ∃ r, upsertEvent env db d a v gids = Except.ok r
            ∧ (¬gids = [] → r.event.genres = gids)
            ∧ (gids = [] → r.event.genres = ex.genres)) := by
  refine ⟨?_, ?_, ?_⟩
  · intro db d gids old h
    constructor
    · intro hne
      have hg : gids.isEmpty = false := by
        cases gids with
        | nil => exact absurd rfl hne
        | cons x xs => rfl
      simp [upsertArtist, h, hg]
    · intro hnil
      subst hnil
      simp [upsertArtist, h, mergeArtistOnConflict]
  · intro env db d gids v h
    constructor
    · intro hne
      have hg : gids.isEmpty = false := by
        cases gids with
        | nil => exact absurd rfl hne
        | cons x xs => rfl
      simp [upsertVenue, h, hg]
    · intro hnil
      subst hnil
      cases hgeo : needsGeocoding v env.now <;> simp [upsertVenue, h, hgeo]
  · intro env db d a v gids ex h1 h2
    have hr : upsertEvent env db d a v gids =
        Except.ok
          { db := { db with events :=
              updateEventRow db.events (existingEventUpdate d gids ex) },
            event := existingEventUpdate d gids ex, st := fetchedState } := by
      simp [upsertEvent, h1, h2]
    refine ⟨_, hr, ?_, ?_⟩
    · intro hne
      have hg : gids.isEmpty = false := by
        cases gids with
        | nil => exact absurd rfl hne
        | cons x xs => rfl
      simp [existingEventUpdate, hg]
    · intro hnil
      subst hnil
      cases hd : (pyTruthyStr d.description && !(pyTruthyStr ex.description)) <;>
        simp [existingEventUpdate, hd]
